import Mathlib

/-!
Shallow embedding of the platform probes of the `metrics-process` crate.

The crate samples OS process metrics for the current process on Linux,
macOS, Windows, FreeBSD and OpenBSD and normalizes them into a common
`Metrics` snapshot whose fields are all independently optional.

Each platform probe `collect()` is embedded as a pure function from an
explicit environment record (one `Option` per fallible OS sub-read,
carrying the raw payload the OS call would return on success) to the
`Metrics` snapshot.  Machine integers are modelled as `Nat`/`Int` with
explicit `% 2 ^ 64` where the source performs `u64` wrapping arithmetic,
and `f64` arithmetic is modelled exactly over `ℚ` (the concrete values
appearing in the theorems below are small enough that the exact rational
value and the IEEE double value coincide).
-/

/-- Common metrics snapshot (`Metrics` in `src/collector.rs`).  Every field
is independently optional; the `Default` impl leaves every field `None`. -/
structure Metrics where
  cpu_seconds_total : Option ℚ
  open_fds : Option Nat
  max_fds : Option Nat
  virtual_memory_bytes : Option Nat
  virtual_memory_max_bytes : Option Nat
  resident_memory_bytes : Option Nat
  start_time_seconds : Option Nat
  threads : Option Nat
deriving DecidableEq, Repr

/-- The all-absent default snapshot (`Metrics::default()`). -/
def Metrics.default : Metrics :=
  { cpu_seconds_total := none
    open_fds := none
    max_fds := none
    virtual_memory_bytes := none
    virtual_memory_max_bytes := none
    resident_memory_bytes := none
    start_time_seconds := none
    threads := none }

/-- Wrapping `u64` reduction: Rust release-mode `u64` arithmetic is mod `2 ^ 64`. -/
def u64Mod (n : Nat) : Nat := n % 2 ^ 64

/-- Rust numeric cast `as u64` from a signed integer (two's-complement wrap). -/
def u64OfInt (n : Int) : Nat := (n % (2 ^ 64 : Int)).toNat

/-- Rust wrapping `u64` subtraction `a - b` (release-mode semantics). -/
def u64SubWrap (a b : Nat) : Nat := (((a : Int) - (b : Int)) % (2 ^ 64 : Int)).toNat

namespace Linux

/-- Soft/hard limit value as reported by procfs (`procfs::process::LimitValue`). -/
inductive LimitValue where
  | value (v : Nat)
  | unlimited
deriving DecidableEq, Repr

/-- The two soft limits read by the Linux probe from `proc.limits()`. -/
structure Limits where
  max_open_files_soft : LimitValue
  max_address_space_soft : LimitValue
deriving DecidableEq, Repr

/-- Fields of the `/proc/self/stat` record used by the Linux probe.
`rss_bytes` is itself fallible in procfs, hence an `Option`; `num_threads`
is an `i64` cast to `u64` by the probe. -/
structure Stat where
  utime : Nat
  stime : Nat
  starttime : Nat
  vsize : Nat
  rss_bytes : Option Nat
  num_threads : Int
deriving DecidableEq, Repr

/-- The process handle `Process::myself()`: each of its sub-reads
(`stat()`, `fd_count()`, `limits()`) fails or succeeds independently. -/
structure Proc where
  stat : Option Stat
  fd_count : Option Nat
  limits : Option Limits
deriving DecidableEq, Repr

/-- Outcome environment of one Linux `collect()` call. -/
structure Env where
  myself : Option Proc
  ticks_per_second : Option Nat
  boot_time_secs : Option Nat
deriving DecidableEq, Repr

/-- The inline `match` on a procfs soft limit used at
`src/collector/linux.rs:35-42`: `Value(v) => Some(v)`, `Unlimited => Some(0)`. -/
def limit_to_u64 : LimitValue → Nat
  | .value v => v
  | .unlimited => 0

/-- Linux probe `collect()` (`src/collector/linux.rs:9-46`). -/
def collect (env : Env) : Metrics :=
  let metrics := Metrics.default
  match env.myself with
  | none => metrics
  | some proc =>
    let metrics :=
      match proc.stat with
      | none => metrics
      | some stat =>
        let metrics :=
          match env.ticks_per_second with
          | none => metrics
          | some ticks =>
            let metrics :=
              match env.boot_time_secs with
              | none => metrics
              | some boot =>
                { metrics with
                    start_time_seconds := some (stat.starttime / ticks + boot) }
            { metrics with
                cpu_seconds_total :=
                  some ((u64Mod (stat.utime + stat.stime) : ℚ) / (ticks : ℚ)) }
        let metrics :=
          match stat.rss_bytes with
          | none => metrics
          | some rss => { metrics with resident_memory_bytes := some rss }
        { metrics with
            virtual_memory_bytes := some stat.vsize
            threads := some (u64OfInt stat.num_threads) }
    let metrics :=
      match proc.fd_count with
      | none => metrics
      | some fd_count => { metrics with open_fds := some fd_count }
    match proc.limits with
    | none => metrics
    | some limit =>
      { metrics with
          max_fds := some (limit_to_u64 limit.max_open_files_soft)
          virtual_memory_max_bytes := some (limit_to_u64 limit.max_address_space_soft) }

end Linux
namespace MacOS

/-- Mach timebase info (`mach_timebase_info_data_t`): a `numer / denom`
ratio of `u32` fields. -/
structure TimebaseInfo where
  numer : Nat
  denom : Nat
deriving DecidableEq, Repr

/-- The cached ratio `TIMEBASE_TO_NANOSECONDS` of `src/collector/macos.rs:16-23`:
`info.numer as f64 / info.denom as f64`. -/
def TIMEBASE_TO_NANOSECONDS (info : TimebaseInfo) : ℚ :=
  (info.numer : ℚ) / (info.denom : ℚ)

/-- The two resource-usage time fields of `RUsageInfoV2` used by the probe
(`u64` values). -/
structure RUsageInfoV2 where
  ri_user_time : Nat
  ri_system_time : Nat
deriving DecidableEq, Repr

/-- Fields of `TaskAllInfo` used by the probe.  `pti_threadnum` is an `i32`
that the probe casts with `as u64`. -/
structure TaskAllInfo where
  pbi_start_tvsec : Nat
  pbi_nfiles : Nat
  pti_virtual_size : Nat
  pti_resident_size : Nat
  pti_threadnum : Int
deriving DecidableEq, Repr

/-- Outcome environment of one macOS `collect()` call.  `listpidinfo` maps
the buffer size (`pbi_nfiles`) passed by the probe to the descriptor-list
length on success; `rlimit_as` / `rlimit_nofile` carry the raw soft limit
returned by `getrlimit` on success. -/
structure Env where
  timebase : TimebaseInfo
  pidrusage : Option RUsageInfoV2
  pidinfo : Option TaskAllInfo
  listpidinfo : Nat → Option Nat
  rlimit_as : Option Nat
  rlimit_nofile : Option Nat

/-- macOS probe `collect()` (`src/collector/macos.rs:25-47`).  Note that the
CPU sum is multiplied by the Mach timebase ratio before dividing by `1e9`,
and that the two soft limits are passed through without any translation. -/
def collect (env : Env) : Metrics :=
  let metrics := Metrics.default
  let metrics :=
    match env.pidrusage with
    | none => metrics
    | some res =>
      { metrics with
          cpu_seconds_total :=
            some ((u64Mod (res.ri_user_time + res.ri_system_time) : ℚ)
              * TIMEBASE_TO_NANOSECONDS env.timebase / 1000000000) }
  let metrics :=
    match env.pidinfo with
    | none => metrics
    | some info =>
      { metrics with
          start_time_seconds := some info.pbi_start_tvsec
          virtual_memory_bytes := some info.pti_virtual_size
          resident_memory_bytes := some info.pti_resident_size
          threads := some (u64OfInt info.pti_threadnum)
          open_fds := env.listpidinfo info.pbi_nfiles }
  { metrics with
      virtual_memory_max_bytes := env.rlimit_as
      max_fds := env.rlimit_nofile }

end MacOS
namespace Windows

/-- Win32 `FILETIME`: two `u32` halves of a 64-bit count of 100-nanosecond
intervals. -/
structure FILETIME where
  dwLowDateTime : Nat
  dwHighDateTime : Nat
deriving DecidableEq, Repr

/-- `u64::checked_shl`: `None` when the shift amount is at least the bit
width, otherwise the (value-truncating) left shift. -/
def checked_shl (x n : Nat) : Option Nat :=
  if n < 64 then some (u64Mod (x <<< n)) else none

/-- The 64-bit assembly `high.checked_shl(32).unwrap_or(0) + low` shared by
both FILETIME conversion functions (`src/collector/windows.rs:99-101` and
`:145-147`); the sum is a `u64` addition. -/
def filetime_nsec (ft : FILETIME) : Nat :=
  u64Mod ((checked_shl ft.dwHighDateTime 32).getD 0 + ft.dwLowDateTime)

/-- `filetime_to_seconds` (`src/collector/windows.rs:97-106`): assemble the
64-bit count, multiply by 100 (`u64`), divide by `1e9` as a float. -/
def filetime_to_seconds (ft : FILETIME) : ℚ :=
  let nsec := filetime_nsec ft
  let nsec := u64Mod (nsec * 100)
  (nsec : ℚ) / 1000000000

/-- The 1601-to-1970 epoch offset in 100-ns units, subtracted at
`src/collector/windows.rs:149`. -/
def EPOCH_OFFSET : Nat := 116444736000000000

/-- `filetime_to_unix_epoch_in_seconds` (`src/collector/windows.rs:144-154`):
assemble the 64-bit count, subtract the epoch offset (unchecked `u64`
subtraction), multiply by 100 (`u64`), divide by `1e9` as a float. -/
def filetime_to_unix_epoch_in_seconds (ft : FILETIME) : ℚ :=
  let nsec := filetime_nsec ft
  let nsec := u64SubWrap nsec EPOCH_OFFSET
  let nsec := u64Mod (nsec * 100)
  (nsec : ℚ) / 1000000000

/-- Rust cast `as u64` from a non-negative `f64` (truncation toward zero,
saturating at the `u64` range). -/
def f64_as_u64 (x : ℚ) : Nat := min x.floor.toNat (2 ^ 64 - 1)

/-- Payload of a successful `GetProcessTimes` call (the exit time is unused
by the probe). -/
structure ProcessTimes where
  creationtime : FILETIME
  kerneltime : FILETIME
  usertime : FILETIME
deriving DecidableEq, Repr

/-- Fields of `PROCESS_MEMORY_COUNTERS_EX` used by the probe. -/
structure MemoryCounters where
  PrivateUsage : Nat
  WorkingSetSize : Nat
deriving DecidableEq, Repr

/-- Outcome environment of one Windows `collect()` call. -/
structure Env where
  process_times : Option ProcessTimes
  memory_info : Option MemoryCounters
  handle_count : Option Nat
deriving DecidableEq, Repr

/-- Windows probe `collect()` (`src/collector/windows.rs:22-90`). -/
def collect (env : Env) : Metrics :=
  let metrics := Metrics.default
  let p :=
    match env.process_times with
    | some t =>
      (some (f64_as_u64 (filetime_to_unix_epoch_in_seconds t.creationtime)),
        some (filetime_to_seconds t.kerneltime + filetime_to_seconds t.usertime))
    | none => (none, none)
  let metrics := { metrics with start_time_seconds := p.1, cpu_seconds_total := p.2 }
  let q :=
    match env.memory_info with
    | some mc => (some mc.PrivateUsage, some mc.WorkingSetSize)
    | none => (none, none)
  let metrics := { metrics with virtual_memory_bytes := q.1, resident_memory_bytes := q.2 }
  let metrics := { metrics with open_fds := env.handle_count }
  { metrics with max_fds := some (16 * 1024 * 1024) }

end Windows
namespace Libc

/-- `libc::timeval` (signed seconds and microseconds). -/
structure Timeval where
  tv_sec : Int
  tv_usec : Int
deriving DecidableEq, Repr

/-- The two CPU-time fields of `libc::rusage` used by the BSD probes. -/
structure Rusage where
  ru_utime : Timeval
  ru_stime : Timeval
deriving DecidableEq, Repr

end Libc

/-- Rust `i64::try_into::<u64>()` (and likewise from smaller signed types):
fails exactly on negative inputs. -/
def try_into_u64 (n : Int) : Option Nat :=
  if 0 ≤ n then some n.toNat else none

namespace FreeBSD

/-- `libc::RLIM_INFINITY` on FreeBSD and OpenBSD: `2 ^ 63 - 1`. -/
def RLIM_INFINITY : Nat := 2 ^ 63 - 1

/-- `translate_rlim` (`src/implementation/freebsd.rs:25-31`). -/
def translate_rlim (rlim : Nat) : Nat :=
  if rlim = RLIM_INFINITY then 0 else rlim

/-- Fields of FreeBSD `libc::kinfo_proc` used by the probe; the first two
are signed values cast with `as u64`, the last two go through `try_into`. -/
structure KinfoProc where
  ki_size : Int
  ki_rssize : Int
  ki_start_tv_sec : Int
  ki_numthreads : Int
deriving DecidableEq, Repr

/-- Outcome environment of one FreeBSD `collect()` call.  `pagesize` is the
result of the `sysconf(_SC_PAGESIZE) as u64` cast; `read_dir_count` is the
entry count of `/dev/fd` when the directory read succeeds. -/
structure Env where
  rusage : Option Libc.Rusage
  rlimit_as : Option Nat
  rlimit_nofile : Option Nat
  kinfo : Option KinfoProc
  pagesize : Nat
  read_dir_count : Option Nat
deriving DecidableEq, Repr

/-- FreeBSD probe `collect()` (`src/implementation/freebsd.rs:64-112`). -/
def collect (env : Env) : Metrics :=
  let metrics := Metrics.default
  let metrics :=
    match env.rusage with
    | none => metrics
    | some usage =>
      { metrics with
          cpu_seconds_total :=
            some (((usage.ru_utime.tv_sec + usage.ru_stime.tv_sec : Int) : ℚ)
              + ((usage.ru_utime.tv_usec + usage.ru_stime.tv_usec : Int) : ℚ) / 1000000) }
  let metrics :=
    match env.rlimit_as with
    | none => metrics
    | some limit => { metrics with virtual_memory_max_bytes := some (translate_rlim limit) }
  let metrics :=
    match env.rlimit_nofile with
    | none => metrics
    | some limit => { metrics with max_fds := some (translate_rlim limit) }
  let metrics :=
    match env.kinfo with
    | none => metrics
    | some kinfo_proc =>
      { metrics with
          virtual_memory_bytes := some (u64OfInt kinfo_proc.ki_size)
          resident_memory_bytes := some (u64Mod (u64OfInt kinfo_proc.ki_rssize * env.pagesize))
          start_time_seconds := try_into_u64 kinfo_proc.ki_start_tv_sec
          threads := try_into_u64 kinfo_proc.ki_numthreads }
  { metrics with open_fds := env.read_dir_count }

end FreeBSD
namespace OpenBSD

/-- `libc::RLIM_INFINITY` on OpenBSD: `2 ^ 63 - 1`. -/
def RLIM_INFINITY : Nat := 2 ^ 63 - 1

/-- `translate_rlim` (`src/implementation/openbsd.rs:27-33`). -/
def translate_rlim (rlim : Nat) : Nat :=
  if rlim = RLIM_INFINITY then 0 else rlim

/-- Fields of OpenBSD `libc::kinfo_proc` used by the probe: `p_vm_rssize`
is a signed value cast with `as u64`; `p_ustart_sec` is a `u64`. -/
structure KinfoProc where
  p_vm_rssize : Int
  p_ustart_sec : Nat
deriving DecidableEq, Repr

/-- Outcome environment of one OpenBSD `collect()` call. -/
structure Env where
  rusage : Option Libc.Rusage
  rlimit_nofile : Option Nat
  kinfo : Option KinfoProc
  pagesize : Nat
deriving DecidableEq, Repr

/-- OpenBSD probe `collect()` (`src/implementation/openbsd.rs:73-107`).
The probe deliberately never touches `virtual_memory_bytes`,
`virtual_memory_max_bytes`, `open_fds` and `threads`. -/
def collect (env : Env) : Metrics :=
  let metrics := Metrics.default
  let metrics :=
    match env.rusage with
    | none => metrics
    | some usage =>
      { metrics with
          cpu_seconds_total :=
            some (((usage.ru_utime.tv_sec + usage.ru_stime.tv_sec : Int) : ℚ)
              + ((usage.ru_utime.tv_usec + usage.ru_stime.tv_usec : Int) : ℚ) / 1000000) }
  let metrics :=
    match env.rlimit_nofile with
    | none => metrics
    | some limit => { metrics with max_fds := some (translate_rlim limit) }
  match env.kinfo with
  | none => metrics
  | some kinfo_proc =>
    { metrics with
        resident_memory_bytes := some (u64Mod (u64OfInt kinfo_proc.p_vm_rssize * env.pagesize))
        start_time_seconds := some kinfo_proc.p_ustart_sec }

end OpenBSD

/-- Spec-side macOS CPU formula, written from the spec's words for the
refinement comparison in C1: "the CPU figure already arrives in nanosecond
units — no ticks-per-second conversion is needed", i.e. the sum of the two
resource-usage time fields divided by `1e9`, with no Mach timebase factor. -/
def macos_cpu_per_spec (res : MacOS.RUsageInfoV2) : ℚ :=
  ((res.ri_user_time : ℚ) + (res.ri_system_time : ℚ)) / 1000000000

/-- Closed form of the Linux probe: every snapshot field as a function of
exactly the sub-reads it originates from. -/
theorem linux_collect_eq (env : Linux.Env) :
    Linux.collect env =
      { cpu_seconds_total :=
          (env.myself.bind Linux.Proc.stat).bind fun stat =>
            env.ticks_per_second.map fun ticks =>
              (u64Mod (stat.utime + stat.stime) : ℚ) / (ticks : ℚ)
        open_fds := env.myself.bind Linux.Proc.fd_count
        max_fds :=
          (env.myself.bind Linux.Proc.limits).map fun limit =>
            Linux.limit_to_u64 limit.max_open_files_soft
        virtual_memory_bytes := (env.myself.bind Linux.Proc.stat).map Linux.Stat.vsize
        virtual_memory_max_bytes :=
          (env.myself.bind Linux.Proc.limits).map fun limit =>
            Linux.limit_to_u64 limit.max_address_space_soft
        resident_memory_bytes := (env.myself.bind Linux.Proc.stat).bind Linux.Stat.rss_bytes
        start_time_seconds :=
          (env.myself.bind Linux.Proc.stat).bind fun stat =>
            env.ticks_per_second.bind fun ticks =>
              env.boot_time_secs.map fun boot => stat.starttime / ticks + boot
        threads :=
          (env.myself.bind Linux.Proc.stat).map fun stat => u64OfInt stat.num_threads } := by
  obtain ⟨myself, ticks, boot⟩ := env
  cases myself with
  | none => cases ticks <;> cases boot <;> rfl
  | some proc =>
    obtain ⟨stat, fd_count, limits⟩ := proc
    cases stat with
    | none =>
      cases ticks <;> cases boot <;> cases fd_count <;> cases limits <;> rfl
    | some stat =>
      obtain ⟨utime, stime, starttime, vsize, rss, num_threads⟩ := stat
      cases ticks <;> cases boot <;> cases rss <;> cases fd_count <;> cases limits <;> rfl

/-- Closed form of the macOS probe: every snapshot field as a function of
exactly the sub-reads it originates from. -/
theorem macos_collect_eq (env : MacOS.Env) :
    MacOS.collect env =
      { cpu_seconds_total :=
          env.pidrusage.map fun res =>
            (u64Mod (res.ri_user_time + res.ri_system_time) : ℚ)
              * MacOS.TIMEBASE_TO_NANOSECONDS env.timebase / 1000000000
        open_fds := env.pidinfo.bind fun info => env.listpidinfo info.pbi_nfiles
        max_fds := env.rlimit_nofile
        virtual_memory_bytes := env.pidinfo.map MacOS.TaskAllInfo.pti_virtual_size
        virtual_memory_max_bytes := env.rlimit_as
        resident_memory_bytes := env.pidinfo.map MacOS.TaskAllInfo.pti_resident_size
        start_time_seconds := env.pidinfo.map MacOS.TaskAllInfo.pbi_start_tvsec
        threads := env.pidinfo.map fun info => u64OfInt info.pti_threadnum } := by
  obtain ⟨timebase, pidrusage, pidinfo, listpidinfo, rlimit_as, rlimit_nofile⟩ := env
  cases pidrusage <;> cases pidinfo <;> rfl

/-- Closed form of the Windows probe: every snapshot field as a function of
exactly the sub-reads it originates from; `max_fds` is a constant and
`threads` / `virtual_memory_max_bytes` are never populated. -/
theorem windows_collect_eq (env : Windows.Env) :
    Windows.collect env =
      { cpu_seconds_total :=
          env.process_times.map fun t =>
            Windows.filetime_to_seconds t.kerneltime
              + Windows.filetime_to_seconds t.usertime
        open_fds := env.handle_count
        max_fds := some 16777216
        virtual_memory_bytes := env.memory_info.map Windows.MemoryCounters.PrivateUsage
        virtual_memory_max_bytes := none
        resident_memory_bytes := env.memory_info.map Windows.MemoryCounters.WorkingSetSize
        start_time_seconds :=
          env.process_times.map fun t =>
            Windows.f64_as_u64 (Windows.filetime_to_unix_epoch_in_seconds t.creationtime)
        threads := none } := by
  obtain ⟨times, meminfo, handles⟩ := env
  cases times <;> cases meminfo <;> rfl

/-- Closed form of the FreeBSD probe: every snapshot field as a function of
exactly the sub-reads it originates from. -/
theorem freebsd_collect_eq (env : FreeBSD.Env) :
    FreeBSD.collect env =
      { cpu_seconds_total :=
          env.rusage.map fun usage =>
            ((usage.ru_utime.tv_sec + usage.ru_stime.tv_sec : Int) : ℚ)
              + ((usage.ru_utime.tv_usec + usage.ru_stime.tv_usec : Int) : ℚ) / 1000000
        open_fds := env.read_dir_count
        max_fds := env.rlimit_nofile.map FreeBSD.translate_rlim
        virtual_memory_bytes := env.kinfo.map fun k => u64OfInt k.ki_size
        virtual_memory_max_bytes := env.rlimit_as.map FreeBSD.translate_rlim
        resident_memory_bytes :=
          env.kinfo.map fun k => u64Mod (u64OfInt k.ki_rssize * env.pagesize)
        start_time_seconds := env.kinfo.bind fun k => try_into_u64 k.ki_start_tv_sec
        threads := env.kinfo.bind fun k => try_into_u64 k.ki_numthreads } := by
  obtain ⟨rusage, rlimit_as, rlimit_nofile, kinfo, pagesize, fdcount⟩ := env
  cases rusage <;> cases rlimit_as <;> cases rlimit_nofile <;> cases kinfo <;> rfl

/-- Closed form of the OpenBSD probe: every snapshot field as a function of
exactly the sub-reads it originates from; four fields are never populated. -/
theorem openbsd_collect_eq (env : OpenBSD.Env) :
    OpenBSD.collect env =
      { cpu_seconds_total :=
          env.rusage.map fun usage =>
            ((usage.ru_utime.tv_sec + usage.ru_stime.tv_sec : Int) : ℚ)
              + ((usage.ru_utime.tv_usec + usage.ru_stime.tv_usec : Int) : ℚ) / 1000000
        open_fds := none
        max_fds := env.rlimit_nofile.map OpenBSD.translate_rlim
        virtual_memory_bytes := none
        virtual_memory_max_bytes := none
        resident_memory_bytes :=
          env.kinfo.map fun k => u64Mod (u64OfInt k.p_vm_rssize * env.pagesize)
        start_time_seconds := env.kinfo.map OpenBSD.KinfoProc.p_ustart_sec
        threads := none } := by
  obtain ⟨rusage, rlimit_nofile, kinfo, pagesize⟩ := env
  cases rusage <;> cases rlimit_nofile <;> cases kinfo <;> rfl

/-- C1 counterexample: the macOS probe does apply the Mach timebase factor.
With timebase `125 / 3` (the Apple Silicon ratio) and
`ri_user_time + ri_system_time = 3e9`, `collect()` reports
`cpu_seconds_total = 125`, while the claimed formula (the nanosecond sum
divided by `1e9`, no timebase scaling) yields `3`. -/
theorem C1_counterexample :
    (MacOS.collect
        { timebase := ⟨125, 3⟩
          pidrusage := some ⟨3000000000, 0⟩
          pidinfo := none
          listpidinfo := fun _ => none
          rlimit_as := none
          rlimit_nofile := none }).cpu_seconds_total = some 125
    ∧ macos_cpu_per_spec ⟨3000000000, 0⟩ = 3
    ∧ (some (125 : ℚ) : Option ℚ) ≠ some (macos_cpu_per_spec ⟨3000000000, 0⟩) := by
  refine ⟨?_, ?_, ?_⟩
  · rw [macos_collect_eq]
    norm_num [u64Mod, MacOS.TIMEBASE_TO_NANOSECONDS]
  · norm_num [macos_cpu_per_spec]
  · norm_num [macos_cpu_per_spec]

/-- C1 amended: on macOS, `collect()` computes `cpu_seconds_total` by
summing `ri_user_time` and `ri_system_time` (a wrapping `u64` sum),
multiplying the sum by the Mach timebase ratio `numer / denom`, and
dividing by `1e9`. -/
theorem C1_amended (env : MacOS.Env) (res : MacOS.RUsageInfoV2)
    (h : env.pidrusage = some res) :
    (MacOS.collect env).cpu_seconds_total =
      some ((u64Mod (res.ri_user_time + res.ri_system_time) : ℚ)
        * MacOS.TIMEBASE_TO_NANOSECONDS env.timebase / 1000000000) := by
  rw [macos_collect_eq, h]
  rfl

/-- C1 amended witness: the amended formula at a concrete environment. -/
theorem C1_amended_witness :
    (MacOS.collect
        { timebase := ⟨1, 1⟩
          pidrusage := some ⟨7, 5⟩
          pidinfo := none
          listpidinfo := fun _ => none
          rlimit_as := none
          rlimit_nofile := none }).cpu_seconds_total =
      some ((u64Mod (7 + 5) : ℚ) * MacOS.TIMEBASE_TO_NANOSECONDS ⟨1, 1⟩ / 1000000000) :=
  C1_amended _ ⟨7, 5⟩ rfl

/-- C2 counterexample: the macOS probe applies no unlimited-to-0 mapping.
When `getrlimit(RLIMIT_AS)` reports the soft limit as unlimited (the macOS
`RLIM_INFINITY` value `2 ^ 63 - 1`), the probe stores that raw value, not
`0`. -/
theorem C2_counterexample :
    (MacOS.collect
        { timebase := ⟨1, 1⟩
          pidrusage := none
          pidinfo := none
          listpidinfo := fun _ => none
          rlimit_as := some (2 ^ 63 - 1)
          rlimit_nofile := some (2 ^ 63 - 1) }).virtual_memory_max_bytes
      = some (2 ^ 63 - 1)
    ∧ some (2 ^ 63 - 1 : Nat) ≠ some (0 : Nat) := by
  constructor
  · rw [macos_collect_eq]
  · simp

/-- C2 amended: the unlimited-to-0 soft-limit convention holds on Linux,
FreeBSD and OpenBSD (a concrete limit is passed through unchanged), while
the macOS probe stores the raw soft limit with no translation at all. -/
theorem C2_amended :
    (FreeBSD.translate_rlim FreeBSD.RLIM_INFINITY = 0
      ∧ ∀ v : Nat, v ≠ FreeBSD.RLIM_INFINITY → FreeBSD.translate_rlim v = v)
    ∧ (OpenBSD.translate_rlim OpenBSD.RLIM_INFINITY = 0
      ∧ ∀ v : Nat, v ≠ OpenBSD.RLIM_INFINITY → OpenBSD.translate_rlim v = v)
    ∧ (Linux.limit_to_u64 .unlimited = 0 ∧ ∀ v : Nat, Linux.limit_to_u64 (.value v) = v)
    ∧ (∀ env : Linux.Env, ∀ proc : Linux.Proc, ∀ limit : Linux.Limits,
        env.myself = some proc → proc.limits = some limit →
          (Linux.collect env).max_fds = some (Linux.limit_to_u64 limit.max_open_files_soft)
          ∧ (Linux.collect env).virtual_memory_max_bytes
            = some (Linux.limit_to_u64 limit.max_address_space_soft))
    ∧ (∀ env : FreeBSD.Env, ∀ r : Nat, env.rlimit_nofile = some r →
        (FreeBSD.collect env).max_fds = some (FreeBSD.translate_rlim r))
    ∧ (∀ env : FreeBSD.Env, ∀ r : Nat, env.rlimit_as = some r →
        (FreeBSD.collect env).virtual_memory_max_bytes = some (FreeBSD.translate_rlim r))
    ∧ (∀ env : OpenBSD.Env, ∀ r : Nat, env.rlimit_nofile = some r →
        (OpenBSD.collect env).max_fds = some (OpenBSD.translate_rlim r))
    ∧ (∀ env : MacOS.Env,
        (MacOS.collect env).virtual_memory_max_bytes = env.rlimit_as
        ∧ (MacOS.collect env).max_fds = env.rlimit_nofile) := by
  refine ⟨⟨rfl, fun v hv => ?_⟩, ⟨rfl, fun v hv => ?_⟩, ⟨rfl, fun v => rfl⟩,
    fun env proc limit hp hl => ?_, fun env r hr => ?_, fun env r hr => ?_,
    fun env r hr => ?_, fun env => ?_⟩
  · simp [FreeBSD.translate_rlim, hv]
  · simp [OpenBSD.translate_rlim, hv]
  · rw [linux_collect_eq]
    simp [hp, hl]
  · rw [freebsd_collect_eq]
    simp [hr]
  · rw [freebsd_collect_eq]
    simp [hr]
  · rw [openbsd_collect_eq]
    simp [hr]
  · rw [macos_collect_eq]
    exact ⟨rfl, rfl⟩

/-- C2 amended witness: the mappings at concrete inputs on each platform. -/
theorem C2_amended_witness :
    FreeBSD.translate_rlim 42 = 42
    ∧ OpenBSD.translate_rlim OpenBSD.RLIM_INFINITY = 0
    ∧ (Linux.collect
        { myself := some
            { stat := none
              fd_count := none
              limits := some
                { max_open_files_soft := .value 7
                  max_address_space_soft := .unlimited } }
          ticks_per_second := none
          boot_time_secs := none }).max_fds = some (Linux.limit_to_u64 (.value 7))
    ∧ (FreeBSD.collect
        { rusage := none
          rlimit_as := none
          rlimit_nofile := some FreeBSD.RLIM_INFINITY
          kinfo := none
          pagesize := 4096
          read_dir_count := none }).max_fds = some (FreeBSD.translate_rlim FreeBSD.RLIM_INFINITY)
    ∧ (MacOS.collect
        { timebase := ⟨1, 1⟩
          pidrusage := none
          pidinfo := none
          listpidinfo := fun _ => none
          rlimit_as := some 5
          rlimit_nofile := none }).virtual_memory_max_bytes = some 5 := by
  obtain ⟨hf, ho, _, hlc, hfn, _, _, hm⟩ := C2_amended
  refine ⟨hf.2 42 (by norm_num [FreeBSD.RLIM_INFINITY]), ho.1, ?_, ?_, ?_⟩
  · exact (hlc _
      { stat := none
        fd_count := none
        limits := some { max_open_files_soft := .value 7, max_address_space_soft := .unlimited } }
      { max_open_files_soft := .value 7, max_address_space_soft := .unlimited }
      rfl rfl).1
  · exact hfn _ _ rfl
  · exact (hm _).1

/-- C3 counterexample: a FILETIME of 100,000 hundred-nanosecond units is
0.01 seconds, so the kernel+user CPU total for the claimed pair is 0.02
seconds, not the 0.00002 seconds the claim states. -/
theorem C3_counterexample :
    (Windows.collect
        { process_times := some ⟨⟨0, 0⟩, ⟨100000, 0⟩, ⟨100000, 0⟩⟩
          memory_info := none
          handle_count := none }).cpu_seconds_total = some (2 / 100 : ℚ)
    ∧ (2 / 100 : ℚ) ≠ (2 / 100000 : ℚ) := by
  constructor
  · rw [windows_collect_eq]
    norm_num [Windows.filetime_to_seconds, Windows.filetime_nsec, Windows.checked_shl,
      u64Mod, Nat.shiftLeft_eq]
  · norm_num

/-- C3 amended: for the synthetic pair of FILETIMEs each encoding 100,000
hundred-nanosecond units, `cpu_seconds_total` equals 0.02 seconds; and for
a FILETIME whose 64-bit value is the 1601-to-1970 epoch offset
116444736000000000, `filetime_to_unix_epoch_in_seconds` returns 0. -/
theorem C3_amended :
    (Windows.collect
        { process_times := some ⟨⟨0, 0⟩, ⟨100000, 0⟩, ⟨100000, 0⟩⟩
          memory_info := none
          handle_count := none }).cpu_seconds_total = some (2 / 100 : ℚ)
    ∧ Windows.filetime_to_seconds ⟨100000, 0⟩ + Windows.filetime_to_seconds ⟨100000, 0⟩
      = (2 / 100 : ℚ)
    ∧ Windows.filetime_to_unix_epoch_in_seconds
        ⟨Windows.EPOCH_OFFSET % 2 ^ 32, Windows.EPOCH_OFFSET / 2 ^ 32⟩ = 0 := by
  refine ⟨?_, ?_, ?_⟩
  · rw [windows_collect_eq]
    norm_num [Windows.filetime_to_seconds, Windows.filetime_nsec, Windows.checked_shl,
      u64Mod, Nat.shiftLeft_eq]
  · norm_num [Windows.filetime_to_seconds, Windows.filetime_nsec, Windows.checked_shl,
      u64Mod, Nat.shiftLeft_eq]
  · norm_num [Windows.filetime_to_unix_epoch_in_seconds, Windows.filetime_nsec,
      Windows.checked_shl, u64Mod, u64SubWrap, Windows.EPOCH_OFFSET, Nat.shiftLeft_eq]

/-- C4 counterexample: on Windows the all-failure outcome does not yield
the all-absent default snapshot, because `max_fds` is populated
unconditionally with the fixed ceiling. -/
theorem C4_counterexample :
    Windows.collect { process_times := none, memory_info := none, handle_count := none }
      ≠ Metrics.default
    ∧ (Windows.collect
        { process_times := none, memory_info := none, handle_count := none }).max_fds
      = some 16777216 := by
  constructor
  · intro h
    have h2 := congrArg Metrics.max_fds h
    rw [windows_collect_eq] at h2
    simp [Metrics.default] at h2
  · rw [windows_collect_eq]

/-- C4 amended: every probe is a total function of its sub-read outcomes
(so `collect()` always returns a snapshot); on Linux, macOS, FreeBSD and
OpenBSD the all-failure outcome yields the all-absent default snapshot,
while on Windows it yields the default except for the unconditionally
populated `max_fds = 16777216`; and on every platform each snapshot field
is a function of exactly the sub-reads it originates from, so the failure
of one sub-read suppresses only that sub-read's target fields. -/
theorem C4_amended :
    Linux.collect { myself := none, ticks_per_second := none, boot_time_secs := none }
      = Metrics.default
    ∧ (∀ tb : MacOS.TimebaseInfo, ∀ lp : Nat → Option Nat,
        MacOS.collect
          { timebase := tb
            pidrusage := none
            pidinfo := none
            listpidinfo := lp
            rlimit_as := none
            rlimit_nofile := none } = Metrics.default)
    ∧ Windows.collect { process_times := none, memory_info := none, handle_count := none }
      = { Metrics.default with max_fds := some 16777216 }
    ∧ (∀ ps : Nat,
        FreeBSD.collect
          { rusage := none
            rlimit_as := none
            rlimit_nofile := none
            kinfo := none
            pagesize := ps
            read_dir_count := none } = Metrics.default)
    ∧ (∀ ps : Nat,
        OpenBSD.collect
          { rusage := none, rlimit_nofile := none, kinfo := none, pagesize := ps }
          = Metrics.default)
    ∧ (∀ env : Linux.Env,
        Linux.collect env =
          { cpu_seconds_total :=
              (env.myself.bind Linux.Proc.stat).bind fun stat =>
                env.ticks_per_second.map fun ticks =>
                  (u64Mod (stat.utime + stat.stime) : ℚ) / (ticks : ℚ)
            open_fds := env.myself.bind Linux.Proc.fd_count
            max_fds :=
              (env.myself.bind Linux.Proc.limits).map fun limit =>
                Linux.limit_to_u64 limit.max_open_files_soft
            virtual_memory_bytes := (env.myself.bind Linux.Proc.stat).map Linux.Stat.vsize
            virtual_memory_max_bytes :=
              (env.myself.bind Linux.Proc.limits).map fun limit =>
                Linux.limit_to_u64 limit.max_address_space_soft
            resident_memory_bytes :=
              (env.myself.bind Linux.Proc.stat).bind Linux.Stat.rss_bytes
            start_time_seconds :=
              (env.myself.bind Linux.Proc.stat).bind fun stat =>
                env.ticks_per_second.bind fun ticks =>
                  env.boot_time_secs.map fun boot => stat.starttime / ticks + boot
            threads :=
              (env.myself.bind Linux.Proc.stat).map fun stat => u64OfInt stat.num_threads })
    ∧ (∀ env : MacOS.Env,
        MacOS.collect env =
          { cpu_seconds_total :=
              env.pidrusage.map fun res =>
                (u64Mod (res.ri_user_time + res.ri_system_time) : ℚ)
                  * MacOS.TIMEBASE_TO_NANOSECONDS env.timebase / 1000000000
            open_fds := env.pidinfo.bind fun info => env.listpidinfo info.pbi_nfiles
            max_fds := env.rlimit_nofile
            virtual_memory_bytes := env.pidinfo.map MacOS.TaskAllInfo.pti_virtual_size
            virtual_memory_max_bytes := env.rlimit_as
            resident_memory_bytes := env.pidinfo.map MacOS.TaskAllInfo.pti_resident_size
            start_time_seconds := env.pidinfo.map MacOS.TaskAllInfo.pbi_start_tvsec
            threads := env.pidinfo.map fun info => u64OfInt info.pti_threadnum })
    ∧ (∀ env : Windows.Env,
        Windows.collect env =
          { cpu_seconds_total :=
              env.process_times.map fun t =>
                Windows.filetime_to_seconds t.kerneltime
                  + Windows.filetime_to_seconds t.usertime
            open_fds := env.handle_count
            max_fds := some 16777216
            virtual_memory_bytes := env.memory_info.map Windows.MemoryCounters.PrivateUsage
            virtual_memory_max_bytes := none
            resident_memory_bytes := env.memory_info.map Windows.MemoryCounters.WorkingSetSize
            start_time_seconds :=
              env.process_times.map fun t =>
                Windows.f64_as_u64 (Windows.filetime_to_unix_epoch_in_seconds t.creationtime)
            threads := none })
    ∧ (∀ env : FreeBSD.Env,
        FreeBSD.collect env =
          { cpu_seconds_total :=
              env.rusage.map fun usage =>
                ((usage.ru_utime.tv_sec + usage.ru_stime.tv_sec : Int) : ℚ)
                  + ((usage.ru_utime.tv_usec + usage.ru_stime.tv_usec : Int) : ℚ) / 1000000
            open_fds := env.read_dir_count
            max_fds := env.rlimit_nofile.map FreeBSD.translate_rlim
            virtual_memory_bytes := env.kinfo.map fun k => u64OfInt k.ki_size
            virtual_memory_max_bytes := env.rlimit_as.map FreeBSD.translate_rlim
            resident_memory_bytes :=
              env.kinfo.map fun k => u64Mod (u64OfInt k.ki_rssize * env.pagesize)
            start_time_seconds := env.kinfo.bind fun k => try_into_u64 k.ki_start_tv_sec
            threads := env.kinfo.bind fun k => try_into_u64 k.ki_numthreads })
    ∧ (∀ env : OpenBSD.Env,
        OpenBSD.collect env =
          { cpu_seconds_total :=
              env.rusage.map fun usage =>
                ((usage.ru_utime.tv_sec + usage.ru_stime.tv_sec : Int) : ℚ)
                  + ((usage.ru_utime.tv_usec + usage.ru_stime.tv_usec : Int) : ℚ) / 1000000
            open_fds := none
            max_fds := env.rlimit_nofile.map OpenBSD.translate_rlim
            virtual_memory_bytes := none
            virtual_memory_max_bytes := none
            resident_memory_bytes :=
              env.kinfo.map fun k => u64Mod (u64OfInt k.p_vm_rssize * env.pagesize)
            start_time_seconds := env.kinfo.map OpenBSD.KinfoProc.p_ustart_sec
            threads := none }) :=
  ⟨rfl, fun _ _ => rfl, rfl, fun _ => rfl, fun _ => rfl,
    linux_collect_eq, macos_collect_eq, windows_collect_eq,
    freebsd_collect_eq, openbsd_collect_eq⟩

/-- C5: on every platform probe, a snapshot field is present exactly when
the OS calls it originates from succeeded (for FreeBSD's `try_into`
conversions, additionally when the signed payload is non-negative), so an
OS-call failure is signalled exclusively by absence and never by a
sentinel value.  Windows `max_fds` originates from no OS call and is the
one unconditionally present field; fields a platform never populates are
unconditionally absent. -/
theorem C5_presence_iff_success :
    (∀ env : Linux.Env,
        (Linux.collect env).cpu_seconds_total.isSome
          = ((env.myself.bind Linux.Proc.stat).isSome && env.ticks_per_second.isSome)
        ∧ (Linux.collect env).start_time_seconds.isSome
          = ((env.myself.bind Linux.Proc.stat).isSome && env.ticks_per_second.isSome
              && env.boot_time_secs.isSome)
        ∧ (Linux.collect env).resident_memory_bytes.isSome
          = ((env.myself.bind Linux.Proc.stat).bind Linux.Stat.rss_bytes).isSome
        ∧ (Linux.collect env).virtual_memory_bytes.isSome
          = (env.myself.bind Linux.Proc.stat).isSome
        ∧ (Linux.collect env).threads.isSome = (env.myself.bind Linux.Proc.stat).isSome
        ∧ (Linux.collect env).open_fds.isSome = (env.myself.bind Linux.Proc.fd_count).isSome
        ∧ (Linux.collect env).max_fds.isSome = (env.myself.bind Linux.Proc.limits).isSome
        ∧ (Linux.collect env).virtual_memory_max_bytes.isSome
          = (env.myself.bind Linux.Proc.limits).isSome)
    ∧ (∀ env : MacOS.Env,
        (MacOS.collect env).cpu_seconds_total.isSome = env.pidrusage.isSome
        ∧ (MacOS.collect env).start_time_seconds.isSome = env.pidinfo.isSome
        ∧ (MacOS.collect env).virtual_memory_bytes.isSome = env.pidinfo.isSome
        ∧ (MacOS.collect env).resident_memory_bytes.isSome = env.pidinfo.isSome
        ∧ (MacOS.collect env).threads.isSome = env.pidinfo.isSome
        ∧ (MacOS.collect env).open_fds.isSome
          = (env.pidinfo.bind fun info => env.listpidinfo info.pbi_nfiles).isSome
        ∧ (MacOS.collect env).virtual_memory_max_bytes.isSome = env.rlimit_as.isSome
        ∧ (MacOS.collect env).max_fds.isSome = env.rlimit_nofile.isSome)
    ∧ (∀ env : Windows.Env,
        (Windows.collect env).cpu_seconds_total.isSome = env.process_times.isSome
        ∧ (Windows.collect env).start_time_seconds.isSome = env.process_times.isSome
        ∧ (Windows.collect env).virtual_memory_bytes.isSome = env.memory_info.isSome
        ∧ (Windows.collect env).resident_memory_bytes.isSome = env.memory_info.isSome
        ∧ (Windows.collect env).open_fds.isSome = env.handle_count.isSome
        ∧ (Windows.collect env).max_fds.isSome = true
        ∧ (Windows.collect env).threads.isSome = false
        ∧ (Windows.collect env).virtual_memory_max_bytes.isSome = false)
    ∧ (∀ env : FreeBSD.Env,
        (FreeBSD.collect env).cpu_seconds_total.isSome = env.rusage.isSome
        ∧ (FreeBSD.collect env).virtual_memory_max_bytes.isSome = env.rlimit_as.isSome
        ∧ (FreeBSD.collect env).max_fds.isSome = env.rlimit_nofile.isSome
        ∧ (FreeBSD.collect env).virtual_memory_bytes.isSome = env.kinfo.isSome
        ∧ (FreeBSD.collect env).resident_memory_bytes.isSome = env.kinfo.isSome
        ∧ (FreeBSD.collect env).start_time_seconds.isSome
          = (match env.kinfo with
             | none => false
             | some k => decide (0 ≤ k.ki_start_tv_sec))
        ∧ (FreeBSD.collect env).threads.isSome
          = (match env.kinfo with
             | none => false
             | some k => decide (0 ≤ k.ki_numthreads))
        ∧ (FreeBSD.collect env).open_fds.isSome = env.read_dir_count.isSome)
    ∧ (∀ env : OpenBSD.Env,
        (OpenBSD.collect env).cpu_seconds_total.isSome = env.rusage.isSome
        ∧ (OpenBSD.collect env).max_fds.isSome = env.rlimit_nofile.isSome
        ∧ (OpenBSD.collect env).resident_memory_bytes.isSome = env.kinfo.isSome
        ∧ (OpenBSD.collect env).start_time_seconds.isSome = env.kinfo.isSome
        ∧ (OpenBSD.collect env).virtual_memory_bytes.isSome = false
        ∧ (OpenBSD.collect env).virtual_memory_max_bytes.isSome = false
        ∧ (OpenBSD.collect env).open_fds.isSome = false
        ∧ (OpenBSD.collect env).threads.isSome = false) := by
  refine ⟨fun env => ?_, fun env => ?_, fun env => ?_, fun env => ?_, fun env => ?_⟩
  · obtain ⟨myself, ticks, boot⟩ := env
    rw [linux_collect_eq]
    rcases myself with _ | ⟨stat, fd_count, limits⟩
    · cases ticks <;> cases boot <;>
        exact ⟨rfl, rfl, rfl, rfl, rfl, rfl, rfl, rfl⟩
    · rcases stat with _ | ⟨utime, stime, starttime, vsize, rss, num_threads⟩
      · cases ticks <;> cases boot <;> cases fd_count <;> cases limits <;>
          exact ⟨rfl, rfl, rfl, rfl, rfl, rfl, rfl, rfl⟩
      · cases ticks <;> cases boot <;> cases rss <;> cases fd_count <;> cases limits <;>
          exact ⟨rfl, rfl, rfl, rfl, rfl, rfl, rfl, rfl⟩
  · obtain ⟨timebase, pidrusage, pidinfo, listpidinfo, rlimit_as, rlimit_nofile⟩ := env
    rw [macos_collect_eq]
    cases pidrusage <;> cases pidinfo <;> cases rlimit_as <;> cases rlimit_nofile <;>
      exact ⟨rfl, rfl, rfl, rfl, rfl, rfl, rfl, rfl⟩
  · obtain ⟨times, meminfo, handles⟩ := env
    rw [windows_collect_eq]
    cases times <;> cases meminfo <;> cases handles <;>
      exact ⟨rfl, rfl, rfl, rfl, rfl, rfl, rfl, rfl⟩
  · obtain ⟨rusage, rlimit_as, rlimit_nofile, kinfo, pagesize, fdcount⟩ := env
    rw [freebsd_collect_eq]
    rcases kinfo with _ | ⟨ki_size, ki_rssize, ki_start_tv_sec, ki_numthreads⟩
    · cases rusage <;> cases rlimit_as <;> cases rlimit_nofile <;> cases fdcount <;>
        exact ⟨rfl, rfl, rfl, rfl, rfl, rfl, rfl, rfl⟩
    · cases rusage <;> cases rlimit_as <;> cases rlimit_nofile <;> cases fdcount <;>
        exact ⟨rfl, rfl, rfl, rfl, rfl,
          by by_cases h : 0 ≤ ki_start_tv_sec <;> simp [try_into_u64, h],
          by by_cases h : 0 ≤ ki_numthreads <;> simp [try_into_u64, h], rfl⟩
  · obtain ⟨rusage, rlimit_nofile, kinfo, pagesize⟩ := env
    rw [openbsd_collect_eq]
    cases rusage <;> cases rlimit_nofile <;> cases kinfo <;>
      exact ⟨rfl, rfl, rfl, rfl, rfl, rfl, rfl, rfl⟩

/-- C6: on Linux, given successful reads of the stat record, the clock-tick
frequency and the boot time, `cpu_seconds_total` is the real-valued
quotient of the tick sum `utime + stime` by `ticks_per_second`, and
`start_time_seconds` is the integer quotient of `starttime` by
`ticks_per_second` plus the boot time. -/
theorem C6_linux_time_conversion (env : Linux.Env) (proc : Linux.Proc)
    (stat : Linux.Stat) (ticks boot : Nat)
    (hp : env.myself = some proc) (hs : proc.stat = some stat)
    (ht : env.ticks_per_second = some ticks) (hb : env.boot_time_secs = some boot)
    (hticks : 0 < ticks) (hsum : stat.utime + stat.stime < 2 ^ 64) :
    (Linux.collect env).cpu_seconds_total
      = some (((stat.utime + stat.stime : Nat) : ℚ) / (ticks : ℚ))
    ∧ (Linux.collect env).start_time_seconds = some (stat.starttime / ticks + boot) := by
  have hmod : u64Mod (stat.utime + stat.stime) = stat.utime + stat.stime := by
    unfold u64Mod
    exact Nat.mod_eq_of_lt hsum
  rw [linux_collect_eq]
  simp [hp, hs, ht, hb, hmod]

/-- C6 witness: the conversion at a concrete environment (ticks 100, boot
1000, utime 3, stime 7, starttime 250). -/
theorem C6_linux_time_conversion_witness :
    (Linux.collect
        { myself := some
            { stat := some
                { utime := 3, stime := 7, starttime := 250, vsize := 0
                  rss_bytes := none, num_threads := 1 }
              fd_count := none
              limits := none }
          ticks_per_second := some 100
          boot_time_secs := some 1000 }).cpu_seconds_total
      = some (((3 + 7 : Nat) : ℚ) / (100 : ℚ))
    ∧ (Linux.collect
        { myself := some
            { stat := some
                { utime := 3, stime := 7, starttime := 250, vsize := 0
                  rss_bytes := none, num_threads := 1 }
              fd_count := none
              limits := none }
          ticks_per_second := some 100
          boot_time_secs := some 1000 }).start_time_seconds
      = some (250 / 100 + 1000) :=
  C6_linux_time_conversion _ _
    { utime := 3, stime := 7, starttime := 250, vsize := 0
      rss_bytes := none, num_threads := 1 }
    100 1000 rfl rfl rfl rfl (by norm_num) (by norm_num)

/-- C7: on Windows, for every outcome of the OS queries, `threads` and
`virtual_memory_max_bytes` are absent and `max_fds` is present and equal
to 16 * 1024 * 1024 = 16777216. -/
theorem C7_windows_fixed_fields (env : Windows.Env) :
    (Windows.collect env).threads = none
    ∧ (Windows.collect env).virtual_memory_max_bytes = none
    ∧ (Windows.collect env).max_fds = some (16 * 1024 * 1024)
    ∧ (Windows.collect env).max_fds = some 16777216 := by
  rw [windows_collect_eq]
  exact ⟨rfl, rfl, rfl, rfl⟩

/-- C8: on OpenBSD, `virtual_memory_bytes`, `virtual_memory_max_bytes`,
`open_fds` and `threads` are absent for every outcome, and
`cpu_seconds_total`, `max_fds`, `resident_memory_bytes` and
`start_time_seconds` are present exactly when `getrusage`,
`getrlimit(RLIMIT_NOFILE)` and the `kinfo_proc` sysctl succeed. -/
theorem C8_openbsd_fields (env : OpenBSD.Env) :
    (OpenBSD.collect env).virtual_memory_bytes = none
    ∧ (OpenBSD.collect env).virtual_memory_max_bytes = none
    ∧ (OpenBSD.collect env).open_fds = none
    ∧ (OpenBSD.collect env).threads = none
    ∧ (OpenBSD.collect env).cpu_seconds_total.isSome = env.rusage.isSome
    ∧ (OpenBSD.collect env).max_fds.isSome = env.rlimit_nofile.isSome
    ∧ (OpenBSD.collect env).resident_memory_bytes.isSome = env.kinfo.isSome
    ∧ (OpenBSD.collect env).start_time_seconds.isSome = env.kinfo.isSome := by
  obtain ⟨rusage, rlimit_nofile, kinfo, pagesize⟩ := env
  rw [openbsd_collect_eq]
  cases rusage <;> cases rlimit_nofile <;> cases kinfo <;>
    exact ⟨rfl, rfl, rfl, rfl, rfl, rfl, rfl, rfl⟩

/-- C9: `checked_shl 32` on a `u64` always returns `some` (32 is below the
bit width 64), so the `unwrap_or(0)` fallback is unreachable, and for
`u32` field values the assembled count is exactly
`dwHighDateTime * 2 ^ 32 + dwLowDateTime`. -/
theorem C9_checked_shl_assembly (high low : Nat)
    (hh : high < 2 ^ 32) (hl : low < 2 ^ 32) :
    Windows.checked_shl high 32 = some (high * 2 ^ 32)
    ∧ Windows.filetime_nsec ⟨low, high⟩ = high * 2 ^ 32 + low := by
  have e32 : (2 : Nat) ^ 32 = 4294967296 := by norm_num
  have e64 : (2 : Nat) ^ 64 = 18446744073709551616 := by norm_num
  have hs : high * 2 ^ 32 < 2 ^ 64 := by
    rw [e32] at hh ⊢; rw [e64]; omega
  have hsl : high * 2 ^ 32 + low < 2 ^ 64 := by
    rw [e32] at hh hl ⊢; rw [e64]; omega
  have h1 : Windows.checked_shl high 32 = some (high * 2 ^ 32) := by
    unfold Windows.checked_shl
    rw [if_pos (by norm_num), Nat.shiftLeft_eq]
    unfold u64Mod
    rw [Nat.mod_eq_of_lt hs]
  refine ⟨h1, ?_⟩
  unfold Windows.filetime_nsec
  rw [h1]
  unfold u64Mod
  simp only [Option.getD_some]
  exact Nat.mod_eq_of_lt hsl

/-- C9 witness: the assembly at the concrete halves high = 1, low = 5. -/
theorem C9_checked_shl_assembly_witness :
    Windows.checked_shl 1 32 = some (1 * 2 ^ 32)
    ∧ Windows.filetime_nsec ⟨5, 1⟩ = 1 * 2 ^ 32 + 5 :=
  C9_checked_shl_assembly 1 5 (by norm_num) (by norm_num)

/-- C10: when the assembled FILETIME count is at least the epoch offset
116444736000000000 (a time at or after the Unix epoch), the unchecked
`u64` subtraction in `filetime_to_unix_epoch_in_seconds` cannot
underflow — the wrapping subtraction agrees with the exact difference —
and the returned start time is non-negative. -/
theorem C10_epoch_sub_no_underflow (ft : Windows.FILETIME)
    (h : Windows.EPOCH_OFFSET ≤ Windows.filetime_nsec ft) :
    u64SubWrap (Windows.filetime_nsec ft) Windows.EPOCH_OFFSET
      = Windows.filetime_nsec ft - Windows.EPOCH_OFFSET
    ∧ 0 ≤ Windows.filetime_to_unix_epoch_in_seconds ft := by
  have hlt : Windows.filetime_nsec ft < 2 ^ 64 :=
    Nat.mod_lt _ (by norm_num)
  constructor
  · unfold u64SubWrap
    rw [Int.emod_eq_of_lt]
    · rw [← Nat.cast_sub h, Int.toNat_natCast]
    · omega
    · have : ((Windows.filetime_nsec ft : Int)) < 2 ^ 64 := by exact_mod_cast hlt
      omega
  · have e : Windows.filetime_to_unix_epoch_in_seconds ft
        = ((u64Mod (u64SubWrap (Windows.filetime_nsec ft) Windows.EPOCH_OFFSET * 100) : Nat) : ℚ)
          / 1000000000 := rfl
    rw [e]
    exact div_nonneg (Nat.cast_nonneg _) (by norm_num)

/-- C10 witness: a concrete FILETIME at or after the Unix epoch. -/
theorem C10_epoch_sub_no_underflow_witness :
    u64SubWrap (Windows.filetime_nsec ⟨0, 27111903⟩) Windows.EPOCH_OFFSET
      = Windows.filetime_nsec ⟨0, 27111903⟩ - Windows.EPOCH_OFFSET
    ∧ 0 ≤ Windows.filetime_to_unix_epoch_in_seconds ⟨0, 27111903⟩ :=
  C10_epoch_sub_no_underflow ⟨0, 27111903⟩
    (by norm_num [Windows.filetime_nsec, Windows.checked_shl, u64Mod,
      Windows.EPOCH_OFFSET, Nat.shiftLeft_eq])
